import Mathlib

/-!
Shallow embedding of `src/backend/server.py` (WaniKani kanji flashcards
backend): the JLPT level table, the paginated list endpoint `get_kanji`
and the single-item endpoint `get_kanji_by_id`, together with the
upstream-response model they consume.

Upstream HTTP traffic is modelled by data: the pagination loop in
`get_kanji` follows server-supplied `next_url` pointers, so the chain of
page responses served for a given initial URL is represented as a
`List PageResp` (the last element is the page whose `next_url` is
absent); the two batch lookups and the single-item fetch are represented
by their response values.  JSON payload dictionaries are represented by
structures whose `Option` fields record presence/absence where the code
distinguishes it (`dict.get` with no default), and by plain fields where
the code always applies a default.
-/

namespace Server

/-- One entry of an upstream `meanings` list: `{meaning, primary}`.
The code reads these with `m.get("meaning", "")` and truthiness of
`m.get("primary")`, so absent fields collapse to `""`/`false`. -/
structure MeaningEntry where
  meaning : String
  primary : Bool
deriving DecidableEq

/-- One entry of an upstream `readings` list: `{reading, primary, type}`.
`type` keeps its absence (`r.get("type", "onyomi")` defaults it only at
assembly time). -/
structure ReadingEntry where
  reading : String
  primary : Bool
  type : Option String
deriving DecidableEq

/-- Pydantic `ContextSentence`; also used for the upstream
`context_sentences` entries (read with `cs.get("ja","")`/`cs.get("en","")`). -/
structure ContextSentence where
  ja : String
  en : String
deriving DecidableEq

/-- The `data` payload of one upstream subject, as accessed by the code.
`characters`, `level`, mnemonics and `slug` keep their absence because the
code reads `characters` without a default in the radical branch and
defaults the others at each use site. -/
structure ItemData where
  characters : Option String
  meanings : List MeaningEntry
  readings : List ReadingEntry
  level : Option Int
  meaning_mnemonic : Option String
  reading_mnemonic : Option String
  context_sentences : List ContextSentence
  amalgamation_subject_ids : List Nat
  component_subject_ids : List Nat
  slug : Option String
deriving DecidableEq

/-- One element of an upstream `data` array: `{id, data}`
(`item.get("id", 0)` / `item.get("data", {})`). -/
structure Item where
  id : Nat
  data : ItemData
deriving DecidableEq

/-- Pydantic `VocabWord`. -/
structure VocabWord where
  id : Nat
  characters : String
  meanings : List String
  readings : List String
deriving DecidableEq

/-- Pydantic `RadicalComponent`; `character` is `Optional[str] = None`. -/
structure RadicalComponent where
  id : Nat
  character : Option String
  slug : String
  meaning : String
deriving DecidableEq

/-- Pydantic `KanjiMeaning`. -/
structure KanjiMeaning where
  meaning : String
  primary : Bool
deriving DecidableEq

/-- Pydantic `KanjiReading`. -/
structure KanjiReading where
  reading : String
  primary : Bool
  type : String
deriving DecidableEq

/-- Pydantic `KanjiSubject`; the default values mirror the pydantic field
defaults, used whenever the code omits a field at construction. -/
structure KanjiSubject where
  id : Nat
  character : String
  meanings : List KanjiMeaning
  readings : List KanjiReading
  level : Int
  meaning_mnemonic : Option String := none
  reading_mnemonic : Option String := none
  context_sentences : List ContextSentence := []
  vocabulary : List VocabWord := []
  radicals : List RadicalComponent := []
  jlpt_level : Option String := none
deriving DecidableEq

/-- Pydantic `KanjiResponse`. -/
structure KanjiResponse where
  kanji : List KanjiSubject
  total_count : Nat
  page : Nat
  per_page : Nat
  total_pages : Nat
deriving DecidableEq

/-- FastAPI `HTTPException(status_code=..., detail=...)`. -/
structure HTTPException where
  status_code : Nat
  detail : String
deriving DecidableEq

/-- Python `list(range(a, b))` over integers. -/
def pyRange (a b : Int) : List Int :=
  (List.range (b - a).toNat).map (fun i => a + Int.ofNat i)

/-- The `JLPT_LEVEL_MAPPING` insertion-ordered dict from band code to the
`list(range(...))` of WaniKani levels. -/
def JLPT_LEVEL_MAPPING : List (String × List Int) :=
  [("N5", pyRange 1 11), ("N4", pyRange 11 21), ("N3", pyRange 21 31),
   ("N2", pyRange 31 51), ("N1", pyRange 51 61)]

/-- The `get_jlpt_level` conversion: scan the mapping in insertion order, return the first
band whose level list contains the input, else the `"N1"` default. -/
def get_jlpt_level (wanikani_level : Int) : String :=
  (JLPT_LEVEL_MAPPING.findSome? (fun p =>
      if wanikani_level ∈ p.2 then some p.1 else none)).getD "N1"

/-- Python `str.upper()`, modelled character-wise with `Char.toUpper`
(faithful on the ASCII band codes the mapping contains). -/
def upper (s : String) : String :=
  ⟨s.data.map Char.toUpper⟩

def WANIKANI_BASE_URL : String := "https://api.wanikani.com/v2"

/-- The `levels_param` fragment of the initial subjects query:
`"&levels=..."` when the band code is truthy (non-empty) and its
uppercase form is a key of `JLPT_LEVEL_MAPPING`, else `""`. -/
def levels_param (jlpt_level : Option String) : String :=
  match jlpt_level with
  | none => ""
  | some s =>
    if s ≠ "" ∧ (JLPT_LEVEL_MAPPING.lookup (upper s)).isSome then
      "&levels=" ++
        String.intercalate ","
          (((JLPT_LEVEL_MAPPING.lookup (upper s)).getD []).map toString)
    else ""

/-- The initial upstream URL built by `get_kanji`. -/
def kanji_list_url (jlpt_level : Option String) : String :=
  WANIKANI_BASE_URL ++ "/subjects?types=kanji" ++ levels_param jlpt_level

/-- One response of the upstream pagination loop: status, raw body text,
and the parsed `data` array. -/
structure PageResp where
  status_code : Nat
  text : String
  data : List Item
deriving DecidableEq

/-- One entry of `all_kanji_raw`: the dict the loop body appends for each
upstream item. -/
structure RawKanji where
  id : Nat
  data : ItemData
  amalgamation_ids : List Nat
  component_ids : List Nat
deriving DecidableEq

/-- The dict appended to `all_kanji_raw` for one upstream item. -/
def raw_of_item (item : Item) : RawKanji :=
  { id := item.id
    data := item.data
    amalgamation_ids := item.data.amalgamation_subject_ids
    component_ids := item.data.component_subject_ids }

/-- The pagination loop of `get_kanji`: walk the chain of page responses;
on the first non-200 response raise
`HTTPException(status, "WaniKani API error: " + text)`, otherwise append
every page's items to `all_kanji_raw`. -/
def collect_pages : List PageResp → Except HTTPException (List RawKanji)
  | [] => .ok []
  | p :: rest =>
    if p.status_code ≠ 200 then
      .error { status_code := p.status_code
               detail := "WaniKani API error: " ++ p.text }
    else
      match collect_pages rest with
      | .error e => .error e
      | .ok tail => .ok (p.data.map raw_of_item ++ tail)

/-- The `all_kanji_raw` list produced when every page succeeds. -/
def materialize (pages : List PageResp) : List RawKanji :=
  pages.flatMap (fun p => p.data.map raw_of_item)

/-- A batch-lookup response (`GET /subjects?ids=...`). -/
structure BatchResp where
  status_code : Nat
  data : List Item
deriving DecidableEq

/-- The `vocab_ids_to_fetch` set: first-5 amalgamation IDs of the page's
kanji, deduplicated. -/
def vocab_ids_to_fetch (paginated_raw : List RawKanji) : List Nat :=
  (paginated_raw.flatMap (fun k => k.amalgamation_ids.take 5)).dedup

/-- The `radical_ids_to_fetch` set: all component IDs of the page's kanji,
deduplicated. -/
def radical_ids_to_fetch (paginated_raw : List RawKanji) : List Nat :=
  (paginated_raw.flatMap (fun k => k.component_ids)).dedup

/-- The `VocabWord` built from one batch-response item: meanings flagged
primary, else the first meaning (`meanings[:1]`); readings flagged
primary. -/
def vocab_word_of_item (v_item : Item) : VocabWord :=
  let prim := (v_item.data.meanings.filter (fun m => m.primary)).map
      (fun m => m.meaning)
  let all_meanings :=
    if prim = [] then (v_item.data.meanings.take 1).map (fun m => m.meaning)
    else prim
  { id := v_item.id
    characters := v_item.data.characters.getD ""
    meanings := all_meanings
    readings := (v_item.data.readings.filter (fun r => r.primary)).map
      (fun r => r.reading) }

/-- The `vocab_map` dict as an association list; a later dict assignment wins, so
later items are consed in front and `List.lookup` finds them first. -/
def build_vocab_map (items : List Item) : List (Nat × VocabWord) :=
  items.foldl (fun m it => (it.id, vocab_word_of_item it) :: m) []

/-- The radical `primary_meaning` expression: first meaning flagged
primary; else `meanings[0]` when the list is non-empty; else `""`. -/
def radical_primary_meaning (meanings : List MeaningEntry) : String :=
  match meanings.find? (fun m => m.primary) with
  | some m => m.meaning
  | none =>
    match meanings with
    | [] => ""
    | m :: _ => m.meaning

/-- The `RadicalComponent` built from one batch-response item; `character`
is `r_data.get("characters")`, so absence is preserved. -/
def radical_component_of_item (r_item : Item) : RadicalComponent :=
  { id := r_item.id
    character := r_item.data.characters
    slug := r_item.data.slug.getD ""
    meaning := radical_primary_meaning r_item.data.meanings }

/-- The `radical_map` dict as an association list (same overwrite order as
`build_vocab_map`). -/
def build_radical_map (items : List Item) : List (Nat × RadicalComponent) :=
  items.foldl (fun m it => (it.id, radical_component_of_item it) :: m) []

/-- Assembly of one page kanji into a `KanjiSubject`.  The source omits
the `radicals` keyword at construction, so the pydantic default `[]` is
used regardless of the `radical_map` it built earlier. -/
def assemble_kanji (vocab_map : List (Nat × VocabWord)) (kanji_raw : RawKanji) :
    KanjiSubject :=
  let item_data := kanji_raw.data
  let meanings := item_data.meanings.map (fun m =>
    ({ meaning := m.meaning, primary := m.primary } : KanjiMeaning))
  let readings := item_data.readings.map (fun r =>
    ({ reading := r.reading, primary := r.primary,
       type := r.type.getD "onyomi" } : KanjiReading))
  let wanikani_level := item_data.level.getD 1
  let context_sentences := item_data.context_sentences.map (fun cs =>
    ({ ja := cs.ja, en := cs.en } : ContextSentence))
  let vocab_list := (kanji_raw.amalgamation_ids.take 5).filterMap
    (fun v_id => vocab_map.lookup v_id)
  { id := kanji_raw.id
    character := item_data.characters.getD ""
    meanings := meanings
    readings := readings
    level := wanikani_level
    meaning_mnemonic := some (item_data.meaning_mnemonic.getD "")
    reading_mnemonic := some (item_data.reading_mnemonic.getD "")
    context_sentences := context_sentences
    vocabulary := vocab_list
    jlpt_level := some (get_jlpt_level wanikani_level) }

/-- Handler for `GET /api/kanji`: drive the upstream pagination to exhaustion, slice
the requested page, build the batch maps (each batch is consulted only
when its ID set is non-empty and its response is 200), assemble, and
return the page with pagination metadata. -/
def get_kanji (api_key : String) (jlpt_level : Option String)
    (page per_page : Nat) (upstream : String → List PageResp)
    (vocab_resp radical_resp : BatchResp) :
    Except HTTPException KanjiResponse :=
  if api_key = "" then
    .error { status_code := 500, detail := "WaniKani API key not configured" }
  else
    match collect_pages (upstream (kanji_list_url jlpt_level)) with
    | .error e => .error e
    | .ok all_kanji_raw =>
      let total_count := all_kanji_raw.length
      let total_pages := (total_count + per_page - 1) / per_page
      let start_idx := (page - 1) * per_page
      let paginated_raw := (all_kanji_raw.drop start_idx).take per_page
      let vocab_map :=
        if vocab_ids_to_fetch paginated_raw ≠ [] ∧ vocab_resp.status_code = 200
        then build_vocab_map vocab_resp.data
        else []
      let radical_map :=
        if radical_ids_to_fetch paginated_raw ≠ [] ∧
            radical_resp.status_code = 200
        then build_radical_map radical_resp.data
        else []
      let paginated_kanji := paginated_raw.map (assemble_kanji vocab_map)
      .ok { kanji := paginated_kanji
            total_count := total_count
            page := page
            per_page := per_page
            total_pages := total_pages }

/-- The single-item upstream response (`GET /subjects/{id}`). -/
structure ItemResp where
  status_code : Nat
  text : String
  item : Item
deriving DecidableEq

/-- Assembly in `get_kanji_by_id`: like the page assembly but with the
`vocabulary` and `radicals` keywords both omitted (pydantic defaults). -/
def assemble_kanji_by_id (item : Item) : KanjiSubject :=
  let item_data := item.data
  let meanings := item_data.meanings.map (fun m =>
    ({ meaning := m.meaning, primary := m.primary } : KanjiMeaning))
  let readings := item_data.readings.map (fun r =>
    ({ reading := r.reading, primary := r.primary,
       type := r.type.getD "onyomi" } : KanjiReading))
  let wanikani_level := item_data.level.getD 1
  let context_sentences := item_data.context_sentences.map (fun cs =>
    ({ ja := cs.ja, en := cs.en } : ContextSentence))
  { id := item.id
    character := item_data.characters.getD ""
    meanings := meanings
    readings := readings
    level := wanikani_level
    meaning_mnemonic := some (item_data.meaning_mnemonic.getD "")
    reading_mnemonic := some (item_data.reading_mnemonic.getD "")
    context_sentences := context_sentences
    jlpt_level := some (get_jlpt_level wanikani_level) }

/-- Handler for `GET /api/kanji/{kanji_id}`: single fetch; 404 maps to
`HTTPException(404, "Kanji not found")`, any other non-200 to an
upstream-status `HTTPException`, 200 to the assembled subject. -/
def get_kanji_by_id (api_key : String) (kanji_id : Nat)
    (upstream : Nat → ItemResp) : Except HTTPException KanjiSubject :=
  if api_key = "" then
    .error { status_code := 500, detail := "WaniKani API key not configured" }
  else
    let response := upstream kanji_id
    if response.status_code = 404 then
      .error { status_code := 404, detail := "Kanji not found" }
    else if response.status_code ≠ 200 then
      .error { status_code := response.status_code
               detail := "WaniKani API error: " ++ response.text }
    else
      .ok (assemble_kanji_by_id response.item)

/-- A Status Log record (`StatusCheck`). -/
structure StatusCheck where
  id : String
  client_name : String
  timestamp : String
deriving DecidableEq

/-- Handler for `POST /api/status`: the only handler that writes the status-log
collection (it inserts one document). -/
def create_status_check (status_checks : List StatusCheck)
    (new_id ts client_name : String) : List StatusCheck × StatusCheck :=
  let status_obj : StatusCheck :=
    { id := new_id, client_name := client_name, timestamp := ts }
  (status_checks ++ [status_obj], status_obj)

/-- Wrapper of `get_kanji_by_id` with the status-log state threaded through: the
handler body contains no database operation, so the state is returned
unchanged. -/
def get_kanji_by_id_route (status_checks : List StatusCheck)
    (api_key : String) (kanji_id : Nat) (upstream : Nat → ItemResp) :
    List StatusCheck × Except HTTPException KanjiSubject :=
  (status_checks, get_kanji_by_id api_key kanji_id upstream)


/-! ### Concrete sample payloads (used to instantiate the theorems) -/

/-- A sample kanji payload with the given related vocabulary and radical
component IDs. -/
def sampleKanjiData (va co : List Nat) : ItemData :=
  { characters := some "k"
    meanings := [{ meaning := "Meaning", primary := true }]
    readings := [{ reading := "on", primary := true, type := some "onyomi" }]
    level := some 3
    meaning_mnemonic := some "mm"
    reading_mnemonic := some "rm"
    context_sentences := [{ ja := "ja", en := "en" }]
    amalgamation_subject_ids := va
    component_subject_ids := co
    slug := some "slug" }

/-- A sample kanji subject item with id `n`. -/
def sampleKanjiItem (n : Nat) : Item :=
  { id := n, data := sampleKanjiData [100] [10] }

/-- One successful upstream page carrying five kanji. -/
def samplePages : List PageResp :=
  [{ status_code := 200, text := ""
     data := [sampleKanjiItem 1, sampleKanjiItem 2, sampleKanjiItem 3,
              sampleKanjiItem 4, sampleKanjiItem 5] }]

/-- An upstream serving `samplePages` for every URL. -/
def sampleUpstream : String → List PageResp := fun _ => samplePages

/-- A vocabulary item whose meanings carry no primary flag. -/
def sampleVocabItem : Item :=
  { id := 100
    data := { characters := some "vw"
              meanings := [{ meaning := "A", primary := false },
                           { meaning := "B", primary := false }]
              readings := [{ reading := "yo", primary := true,
                             type := some "kunyomi" }]
              level := none
              meaning_mnemonic := none
              reading_mnemonic := none
              context_sentences := []
              amalgamation_subject_ids := []
              component_subject_ids := []
              slug := none } }

/-- A glyph-less radical item with a single non-primary meaning. -/
def sampleRadicalItem : Item :=
  { id := 10
    data := { characters := none
              meanings := [{ meaning := "Tree", primary := false }]
              readings := []
              level := none
              meaning_mnemonic := none
              reading_mnemonic := none
              context_sentences := []
              amalgamation_subject_ids := []
              component_subject_ids := []
              slug := some "tree" } }

/-- A successful vocabulary batch response. -/
def sampleVocabResp : BatchResp :=
  { status_code := 200, data := [sampleVocabItem] }

/-- A successful radical batch response. -/
def sampleRadicalResp : BatchResp :=
  { status_code := 200, data := [sampleRadicalItem] }

/-- A failing batch response. -/
def failedBatchResp : BatchResp := { status_code := 500, data := [] }

/-- A failing upstream page. -/
def badPage : PageResp :=
  { status_code := 503, text := "unavailable", data := [] }

/-- A 404 single-item upstream response. -/
def notFoundItemResp : ItemResp :=
  { status_code := 404, text := "", item := sampleKanjiItem 1 }

/-! ### Helper lemmas -/

theorem mem_pyRange {a b x : Int} (hab : a ≤ b) :
    x ∈ pyRange a b ↔ a ≤ x ∧ x < b := by
  unfold pyRange
  rw [List.mem_map]
  constructor
  · rintro ⟨i, hi, rfl⟩
    rw [List.mem_range] at hi
    rw [Int.ofNat_eq_natCast]
    omega
  · intro h
    refine ⟨(x - a).toNat, ?_, ?_⟩
    · rw [List.mem_range]
      omega
    · rw [Int.ofNat_eq_natCast]
      omega

theorem char_toNat_ofNat {n : Nat} (h : n.isValidChar) :
    (Char.ofNat n).toNat = n := by
  unfold Char.ofNat
  rw [dif_pos h]
  rfl

theorem toUpper_idem (c : Char) : c.toUpper.toUpper = c.toUpper := by
  unfold Char.toUpper
  by_cases h : c.toNat ≥ 97 ∧ c.toNat ≤ 122
  · simp only [h, and_self, if_true, if_pos h]
    have hv : (c.toNat - 32).isValidChar := Or.inl (by omega)
    rw [char_toNat_ofNat hv]
    rw [if_neg (by omega)]
  · simp only [if_neg h]

theorem upper_idem (s : String) : upper (upper s) = upper s := by
  unfold upper
  simp only [List.map_map]
  congr 1
  exact List.map_congr_left (fun c _ => toUpper_idem c)

theorem upper_eq_empty_iff (s : String) : upper s = "" ↔ s = "" := by
  unfold upper
  cases s with
  | mk l =>
    constructor
    · intro h
      have : l.map Char.toUpper = [] := congrArg String.data h
      simp only [List.map_eq_nil_iff] at this
      simp [this]
    · intro h
      have : l = [] := congrArg String.data h
      simp [this]

theorem ceil_div_eq_add_pred_div (n d : Nat) (h : 1 ≤ d) :
    ⌈(n : ℚ) / (d : ℚ)⌉₊ = (n + d - 1) / d := by
  have hd : (0 : ℚ) < d := by exact_mod_cast h
  apply le_antisymm
  · rw [Nat.ceil_le, div_le_iff₀ hd]
    have h1 := Nat.div_add_mod (n + d - 1) d
    have h2 : (n + d - 1) % d < d := Nat.mod_lt _ h
    have h3 : n ≤ ((n + d - 1) / d) * d := by
      rw [Nat.mul_comm]
      omega
    exact_mod_cast h3
  · have hc := Nat.le_ceil ((n : ℚ) / (d : ℚ))
    rw [div_le_iff₀ hd] at hc
    have hc' : n ≤ ⌈(n : ℚ) / (d : ℚ)⌉₊ * d := by exact_mod_cast hc
    rw [Nat.div_le_iff_le_mul_add_pred h]
    have := Nat.mul_comm d ⌈(n : ℚ) / (d : ℚ)⌉₊
    omega

theorem collect_pages_ok (pages : List PageResp)
    (h : ∀ p ∈ pages, p.status_code = 200) :
    collect_pages pages = .ok (materialize pages) := by
  induction pages with
  | nil => rfl
  | cons p rest ih =>
    have hp : p.status_code = 200 := h p (List.mem_cons_self p rest)
    have hrest : ∀ q ∈ rest, q.status_code = 200 :=
      fun q hq => h q (List.mem_cons_of_mem p hq)
    simp only [collect_pages, hp, ne_eq, not_true_eq_false, if_false,
      ih hrest, materialize, List.flatMap_cons]

theorem collect_pages_error (good : List PageResp) (bad : PageResp)
    (rest : List PageResp) (hgood : ∀ p ∈ good, p.status_code = 200)
    (hbad : bad.status_code ≠ 200) :
    collect_pages (good ++ bad :: rest) =
      .error { status_code := bad.status_code
               detail := "WaniKani API error: " ++ bad.text } := by
  induction good with
  | nil =>
    simp only [List.nil_append, collect_pages]
    rw [if_pos hbad]
  | cons p tail ih =>
    have hp : p.status_code = 200 := hgood p (List.mem_cons_self p tail)
    have htail : ∀ q ∈ tail, q.status_code = 200 :=
      fun q hq => hgood q (List.mem_cons_of_mem p hq)
    simp only [List.cons_append, collect_pages, hp, ne_eq, not_true_eq_false,
      if_false, List.append_eq, ih htail]

/-- Normal form of a fully successful `get_kanji` call. -/
theorem get_kanji_ok (api_key : String) (jl : Option String)
    (page per_page : Nat) (upstream : String → List PageResp)
    (vocab_resp radical_resp : BatchResp) (hkey : api_key ≠ "")
    (hok : ∀ p ∈ upstream (kanji_list_url jl), p.status_code = 200) :
    get_kanji api_key jl page per_page upstream vocab_resp radical_resp =
      .ok { kanji := (((materialize (upstream (kanji_list_url jl))).drop
                ((page - 1) * per_page)).take per_page).map
              (assemble_kanji
                (if vocab_ids_to_fetch
                      (((materialize (upstream (kanji_list_url jl))).drop
                        ((page - 1) * per_page)).take per_page) ≠ [] ∧
                    vocab_resp.status_code = 200
                 then build_vocab_map vocab_resp.data
                 else []))
            total_count := (materialize (upstream (kanji_list_url jl))).length
            page := page
            per_page := per_page
            total_pages :=
              ((materialize (upstream (kanji_list_url jl))).length +
                per_page - 1) / per_page } := by
  unfold get_kanji
  rw [if_neg hkey, collect_pages_ok _ hok]

/-- Evaluation of `get_jlpt_level` as an if-chain over the level bands. -/
theorem get_jlpt_level_eq (L : Int) :
    get_jlpt_level L =
      if 1 ≤ L ∧ L ≤ 10 then "N5"
      else if 11 ≤ L ∧ L ≤ 20 then "N4"
      else if 21 ≤ L ∧ L ≤ 30 then "N3"
      else if 31 ≤ L ∧ L ≤ 50 then "N2"
      else "N1" := by
  have h5 : (L ∈ pyRange 1 11) ↔ (1 ≤ L ∧ L < 11) := mem_pyRange (by norm_num)
  have h4 : (L ∈ pyRange 11 21) ↔ (11 ≤ L ∧ L < 21) := mem_pyRange (by norm_num)
  have h3 : (L ∈ pyRange 21 31) ↔ (21 ≤ L ∧ L < 31) := mem_pyRange (by norm_num)
  have h2 : (L ∈ pyRange 31 51) ↔ (31 ≤ L ∧ L < 51) := mem_pyRange (by norm_num)
  have h1 : (L ∈ pyRange 51 61) ↔ (51 ≤ L ∧ L < 61) := mem_pyRange (by norm_num)
  unfold get_jlpt_level JLPT_LEVEL_MAPPING
  by_cases c5 : 1 ≤ L ∧ L ≤ 10
  · rw [if_pos c5, List.findSome?_cons, if_pos (h5.mpr (by omega))]
    rfl
  · rw [if_neg c5, List.findSome?_cons,
      if_neg (fun hm => absurd (h5.mp hm) (by omega))]
    dsimp only
    by_cases c4 : 11 ≤ L ∧ L ≤ 20
    · rw [if_pos c4, List.findSome?_cons, if_pos (h4.mpr (by omega))]
      rfl
    · rw [if_neg c4, List.findSome?_cons,
        if_neg (fun hm => absurd (h4.mp hm) (by omega))]
      dsimp only
      by_cases c3 : 21 ≤ L ∧ L ≤ 30
      · rw [if_pos c3, List.findSome?_cons, if_pos (h3.mpr (by omega))]
        rfl
      · rw [if_neg c3, List.findSome?_cons,
          if_neg (fun hm => absurd (h3.mp hm) (by omega))]
        dsimp only
        by_cases c2 : 31 ≤ L ∧ L ≤ 50
        · rw [if_pos c2, List.findSome?_cons, if_pos (h2.mpr (by omega))]
          rfl
        · rw [if_neg c2, List.findSome?_cons,
            if_neg (fun hm => absurd (h2.mp hm) (by omega))]
          dsimp only
          by_cases c1 : 51 ≤ L ∧ L ≤ 60
          · rw [List.findSome?_cons, if_pos (h1.mpr (by omega))]
            rfl
          · rw [List.findSome?_cons,
              if_neg (fun hm => absurd (h1.mp hm) (by omega))]
            rfl

/-- C3: for every level L in [1,60], `get_jlpt_level` returns exactly one
of N5..N1 according to the fixed table (1-10 N5, 11-20 N4, 21-30 N3,
31-50 N2, 51-60 N1), and for every integer L outside [1,60] it returns
the default N1. -/
theorem get_jlpt_level_band_table (L : Int) :
    get_jlpt_level L ∈ (["N5", "N4", "N3", "N2", "N1"] : List String) ∧
    get_jlpt_level L =
      (if 1 ≤ L ∧ L ≤ 10 then "N5"
       else if 11 ≤ L ∧ L ≤ 20 then "N4"
       else if 21 ≤ L ∧ L ≤ 30 then "N3"
       else if 31 ≤ L ∧ L ≤ 50 then "N2"
       else if 51 ≤ L ∧ L ≤ 60 then "N1"
       else "N1") ∧
    (¬(1 ≤ L ∧ L ≤ 60) → get_jlpt_level L = "N1") := by
  have he := get_jlpt_level_eq L
  refine ⟨?_, ?_, ?_⟩
  · rw [he]
    split_ifs <;> decide
  · rw [he]
    split_ifs <;> rfl
  · intro h
    rw [he]
    split_ifs <;> first | rfl | omega

/-- C4: for every fully-materialized upstream list, every page >= 1 and
per_page in [1,100], the list operation returns
`total_pages = ceil(total_count / per_page)` and exactly the elements at
0-based indices [(page-1)*per_page, page*per_page) of the materialized
list (assembled). -/
theorem get_kanji_pagination_slicing
    (api_key : String) (jl : Option String) (page per_page : Nat)
    (upstream : String → List PageResp) (vocab_resp radical_resp : BatchResp)
    (all : List RawKanji) (vmap : List (Nat × VocabWord))
    (hkey : api_key ≠ "") (hpage : 1 ≤ page) (hpp1 : 1 ≤ per_page)
    (hpp2 : per_page ≤ 100)
    (hok : ∀ p ∈ upstream (kanji_list_url jl), p.status_code = 200)
    (hall : all = materialize (upstream (kanji_list_url jl)))
    (hvmap : vmap =
      if vocab_ids_to_fetch ((all.drop ((page - 1) * per_page)).take per_page) ≠ [] ∧
          vocab_resp.status_code = 200
      then build_vocab_map vocab_resp.data else []) :
    ∃ resp,
      get_kanji api_key jl page per_page upstream vocab_resp radical_resp =
        .ok resp ∧
      resp.total_count = all.length ∧
      resp.total_pages = ⌈(all.length : ℚ) / (per_page : ℚ)⌉₊ ∧
      ∀ i : Nat, resp.kanji[i]? =
        if i < per_page then
          (all[(page - 1) * per_page + i]?).map (assemble_kanji vmap)
        else none := by
  subst hall
  subst hvmap
  refine ⟨_, get_kanji_ok api_key jl page per_page upstream vocab_resp
    radical_resp hkey hok, rfl, ?_, ?_⟩
  · exact (ceil_div_eq_add_pred_div _ _ hpp1).symm
  · intro i
    show ((((materialize (upstream (kanji_list_url jl))).drop
        ((page - 1) * per_page)).take per_page).map _)[i]? = _
    rw [List.getElem?_map, List.getElem?_take]
    by_cases hi : i < per_page
    · rw [if_pos hi, if_pos hi, List.getElem?_drop]
    · rw [if_neg hi, if_neg hi]
      rfl

/-- With an empty vocab map every assembled kanji has empty vocabulary,
and radicals are empty by construction. -/
theorem assemble_kanji_nil_map (k : RawKanji) :
    (assemble_kanji [] k).vocabulary = [] ∧ (assemble_kanji [] k).radicals = [] := by
  refine ⟨?_, rfl⟩
  show (k.amalgamation_ids.take 5).filterMap
      (fun v_id => List.lookup v_id ([] : List (Nat × VocabWord))) = []
  simp [List.lookup]

/-- C2: upstream failures are asymmetric in the list operation: a
non-success response on the primary pagination fetch aborts the whole
request with an `HTTPException` carrying the upstream status and body,
while non-success vocabulary/radical batch responses leave the request
successful with the affected vocabulary/radicals empty. -/
theorem upstream_failure_asymmetry
    (api_key : String) (jl : Option String) (page per_page : Nat)
    (upstream : String → List PageResp) (vocab_resp radical_resp : BatchResp)
    (hkey : api_key ≠ "") :
    (∀ good bad rest,
        upstream (kanji_list_url jl) = good ++ bad :: rest →
        (∀ p ∈ good, p.status_code = 200) →
        bad.status_code ≠ 200 →
        get_kanji api_key jl page per_page upstream vocab_resp radical_resp =
          .error { status_code := bad.status_code
                   detail := "WaniKani API error: " ++ bad.text }) ∧
    ((∀ p ∈ upstream (kanji_list_url jl), p.status_code = 200) →
      ∃ resp,
        get_kanji api_key jl page per_page upstream vocab_resp radical_resp =
          .ok resp ∧
        (vocab_resp.status_code ≠ 200 →
          ∀ s ∈ resp.kanji, s.vocabulary = []) ∧
        (radical_resp.status_code ≠ 200 →
          ∀ s ∈ resp.kanji, s.radicals = [])) := by
  constructor
  · intro good bad rest hchain hgood hbad
    unfold get_kanji
    rw [if_neg hkey, hchain, collect_pages_error good bad rest hgood hbad]
  · intro hok
    refine ⟨_, get_kanji_ok api_key jl page per_page upstream vocab_resp
      radical_resp hkey hok, ?_, ?_⟩
    · intro hv s hs
      rw [if_neg (fun hc : _ ∧ _ => hv hc.2)] at hs
      rw [List.mem_map] at hs
      obtain ⟨k, _, rfl⟩ := hs
      exact (assemble_kanji_nil_map k).1
    · intro hr s hs
      rw [List.mem_map] at hs
      obtain ⟨k, _, rfl⟩ := hs
      rfl

/-- Witness for C4: page 2, per_page 2 over five upstream kanji gives
`total_count = 5` and `total_pages = 3`. -/
theorem get_kanji_pagination_slicing_witness :
    ("key" : String) ≠ "" ∧
    (∀ p ∈ sampleUpstream (kanji_list_url none), p.status_code = 200) ∧
    ∃ resp,
      get_kanji "key" none 2 2 sampleUpstream sampleVocabResp
        sampleRadicalResp = .ok resp ∧
      resp.total_count = 5 ∧ resp.total_pages = 3 := by
  obtain ⟨resp, heq, hc, hp, hi⟩ :=
    get_kanji_pagination_slicing "key" none 2 2 sampleUpstream
      sampleVocabResp sampleRadicalResp _ _ (by decide) (by decide)
      (by decide) (by decide) (by decide) rfl rfl
  refine ⟨by decide, by decide, resp, heq, ?_, ?_⟩
  · rw [hc]
    rfl
  · rw [hp, ceil_div_eq_add_pred_div _ 2 (by norm_num)]
    rfl

/-- Witness for C2: a 503 on the primary fetch aborts with status 503 and
the upstream body; a failing vocabulary batch alone (the radical batch
succeeds) still leaves a success, with vocabulary empty. -/
theorem upstream_failure_asymmetry_witness :
    ("key" : String) ≠ "" ∧
    get_kanji "key" none 1 2 (fun _ => [badPage]) sampleVocabResp
        sampleRadicalResp =
      .error { status_code := 503
               detail := "WaniKani API error: " ++ "unavailable" } ∧
    ∃ resp,
      get_kanji "key" none 1 2 sampleUpstream failedBatchResp
        sampleRadicalResp = .ok resp ∧
      (failedBatchResp.status_code ≠ 200 →
        ∀ s ∈ resp.kanji, s.vocabulary = []) ∧
      (sampleRadicalResp.status_code ≠ 200 →
        ∀ s ∈ resp.kanji, s.radicals = []) := by
  refine ⟨by decide, ?_, ?_⟩
  · exact (upstream_failure_asymmetry "key" none 1 2 (fun _ => [badPage])
      sampleVocabResp sampleRadicalResp (by decide)).1 [] badPage [] rfl
      (by decide) (by decide)
  · exact (upstream_failure_asymmetry "key" none 1 2 sampleUpstream
      failedBatchResp sampleRadicalResp (by decide)).2 (by decide)

/-- C5: each output vocabulary list is exactly the kanji's first five
amalgamation IDs, in order, restricted to batch-resolved IDs (unresolved
IDs silently dropped), hence of length at most 5; the batch ID sets
collect the union over the page's kanji only; and each batch fetch is
skipped entirely (the response is irrelevant) when its ID set is empty. -/
theorem vocabulary_resolution_and_batching
    (api_key : String) (jl : Option String) (page per_page : Nat)
    (upstream : String → List PageResp) (vocab_resp radical_resp : BatchResp)
    (paginated : List RawKanji) (vmap : List (Nat × VocabWord))
    (hkey : api_key ≠ "")
    (hok : ∀ p ∈ upstream (kanji_list_url jl), p.status_code = 200)
    (hpag : paginated = ((materialize (upstream (kanji_list_url jl))).drop
      ((page - 1) * per_page)).take per_page)
    (hvmap : vmap =
      if vocab_ids_to_fetch paginated ≠ [] ∧ vocab_resp.status_code = 200
      then build_vocab_map vocab_resp.data else []) :
    (∃ resp,
      get_kanji api_key jl page per_page upstream vocab_resp radical_resp =
        .ok resp ∧
      resp.kanji = paginated.map (assemble_kanji vmap) ∧
      ∀ k ∈ paginated,
        (assemble_kanji vmap k).vocabulary =
          (k.amalgamation_ids.take 5).filterMap
            (fun v_id => vmap.lookup v_id) ∧
        (assemble_kanji vmap k).vocabulary.length ≤ 5) ∧
    (∀ x, x ∈ vocab_ids_to_fetch paginated ↔
      ∃ k ∈ paginated, x ∈ k.amalgamation_ids.take 5) ∧
    (∀ x, x ∈ radical_ids_to_fetch paginated ↔
      ∃ k ∈ paginated, x ∈ k.component_ids) ∧
    (vocab_ids_to_fetch paginated = [] → ∀ vr2 : BatchResp,
      get_kanji api_key jl page per_page upstream vocab_resp radical_resp =
      get_kanji api_key jl page per_page upstream vr2 radical_resp) ∧
    (radical_ids_to_fetch paginated = [] → ∀ rr2 : BatchResp,
      get_kanji api_key jl page per_page upstream vocab_resp radical_resp =
      get_kanji api_key jl page per_page upstream vocab_resp rr2) := by
  subst hpag
  subst hvmap
  refine ⟨⟨_, get_kanji_ok api_key jl page per_page upstream vocab_resp
      radical_resp hkey hok, rfl, ?_⟩, ?_, ?_, ?_, ?_⟩
  · intro k _
    refine ⟨rfl, ?_⟩
    calc ((k.amalgamation_ids.take 5).filterMap _).length
        ≤ (k.amalgamation_ids.take 5).length := List.length_filterMap_le _ _
      _ ≤ 5 := by
          rw [List.length_take]
          omega
  · intro x
    unfold vocab_ids_to_fetch
    rw [List.mem_dedup, List.mem_flatMap]
  · intro x
    unfold radical_ids_to_fetch
    rw [List.mem_dedup, List.mem_flatMap]
  · intro h0 vr2
    have hc1 : ¬(vocab_ids_to_fetch
        (((materialize (upstream (kanji_list_url jl))).drop
          ((page - 1) * per_page)).take per_page) ≠ [] ∧
        vocab_resp.status_code = 200) := fun hc => hc.1 h0
    have hc2 : ¬(vocab_ids_to_fetch
        (((materialize (upstream (kanji_list_url jl))).drop
          ((page - 1) * per_page)).take per_page) ≠ [] ∧
        vr2.status_code = 200) := fun hc => hc.1 h0
    rw [get_kanji_ok api_key jl page per_page upstream vocab_resp
        radical_resp hkey hok,
      get_kanji_ok api_key jl page per_page upstream vr2 radical_resp
        hkey hok, if_neg hc1, if_neg hc2]
  · intro h0 rr2
    rw [get_kanji_ok api_key jl page per_page upstream vocab_resp
        radical_resp hkey hok,
      get_kanji_ok api_key jl page per_page upstream vocab_resp rr2
        hkey hok]

/-- Witness for C5 over the sample page: the call succeeds and every
assembled kanji has at most five vocabulary entries. -/
theorem vocabulary_resolution_and_batching_witness :
    ("key" : String) ≠ "" ∧
    ∃ resp,
      get_kanji "key" none 1 2 sampleUpstream sampleVocabResp
        sampleRadicalResp = .ok resp ∧
      ∀ k ∈ ((materialize (sampleUpstream (kanji_list_url none))).drop
          ((1 - 1) * 2)).take 2,
        (assemble_kanji
          (if vocab_ids_to_fetch
              (((materialize (sampleUpstream (kanji_list_url none))).drop
                ((1 - 1) * 2)).take 2) ≠ [] ∧
              sampleVocabResp.status_code = 200
           then build_vocab_map sampleVocabResp.data
           else []) k).vocabulary.length ≤ 5 := by
  obtain ⟨⟨resp, heq, hk, hvoc⟩, hmemv, hmemr, hskipv, hskipr⟩ :=
    vocabulary_resolution_and_batching "key" none 1 2 sampleUpstream
      sampleVocabResp sampleRadicalResp _ _ (by decide) (by decide) rfl rfl
  exact ⟨by decide, resp, heq, fun k hk2 => (hvoc k hk2).2⟩

/-- C1 (code bug in the source): the page-list assembly never attaches
the radical map it built. With one page kanji whose component ID 10 is
resolved by a successful radical batch (the batch map lookup succeeds),
the returned record still has `radicals = []`. -/
theorem get_kanji_radicals_dropped :
    Except.map
      (fun resp => (resp.kanji.map (fun s => s.radicals),
                    resp.kanji.map (fun s => s.id)))
      (get_kanji "key" none 1 1 sampleUpstream sampleVocabResp
        sampleRadicalResp) = .ok ([[]], [1]) ∧
    (build_radical_map sampleRadicalResp.data).lookup 10 =
      some { id := 10, character := none, slug := "tree",
             meaning := "Tree" } ∧
    radical_ids_to_fetch
      (((materialize (sampleUpstream (kanji_list_url none))).drop
        ((1 - 1) * 1)).take 1) = [10] := by
  refine ⟨rfl, by decide, by decide⟩

/-- List `find?` returns the first element satisfying the predicate. -/
theorem find?_append_first {α : Type} (p : α → Bool) (pre : List α)
    (m : α) (post : List α) (hpre : ∀ x ∈ pre, p x = false)
    (hm : p m = true) : (pre ++ m :: post).find? p = some m := by
  induction pre with
  | nil =>
    rw [List.nil_append]
    exact List.find?_cons_of_pos _ hm
  | cons x xs ih =>
    rw [List.cons_append, List.find?_cons_of_neg, ih]
    · exact fun y hy => hpre y (List.mem_cons_of_mem x hy)
    · rw [hpre x (List.mem_cons_self x xs)]
      exact Bool.false_ne_true

/-- C6: a resolved vocabulary item's meanings are exactly the
primary-flagged meanings; if none is flagged primary, the single first
listed meaning; its readings are exactly the primary-flagged readings
(possibly empty). -/
theorem vocab_word_meanings_readings (v_item : Item) :
    ((∃ m ∈ v_item.data.meanings, m.primary = true) →
      (vocab_word_of_item v_item).meanings =
        (v_item.data.meanings.filter (fun m => m.primary)).map
          (fun m => m.meaning)) ∧
    (∀ m0 rest, v_item.data.meanings = m0 :: rest →
      (∀ m ∈ v_item.data.meanings, m.primary = false) →
      (vocab_word_of_item v_item).meanings = [m0.meaning]) ∧
    (vocab_word_of_item v_item).readings =
      (v_item.data.readings.filter (fun r => r.primary)).map
        (fun r => r.reading) := by
  refine ⟨?_, ?_, rfl⟩
  · rintro ⟨m, hm, hp⟩
    have hne : (v_item.data.meanings.filter (fun m => m.primary)).map
        (fun m => m.meaning) ≠ [] :=
      List.ne_nil_of_mem
        (List.mem_map_of_mem _ (List.mem_filter.mpr ⟨hm, hp⟩))
    show (if (v_item.data.meanings.filter (fun m => m.primary)).map
          (fun m => m.meaning) = []
        then (v_item.data.meanings.take 1).map (fun m => m.meaning)
        else (v_item.data.meanings.filter (fun m => m.primary)).map
          (fun m => m.meaning)) = _
    rw [if_neg hne]
  · intro m0 rest hdec hnone
    have hfil : v_item.data.meanings.filter (fun m => m.primary) = [] :=
      List.filter_eq_nil_iff.mpr (fun a ha => by rw [hnone a ha]; exact
        Bool.false_ne_true)
    show (if (v_item.data.meanings.filter (fun m => m.primary)).map
          (fun m => m.meaning) = []
        then (v_item.data.meanings.take 1).map (fun m => m.meaning)
        else (v_item.data.meanings.filter (fun m => m.primary)).map
          (fun m => m.meaning)) = _
    rw [hfil, hdec]
    rfl

/-- Witness for C6: meanings `[A (non-primary), B (non-primary)]` resolve
to `["A"]`, and the primary-flagged readings are kept. -/
theorem vocab_word_meanings_readings_witness :
    sampleVocabItem.data.meanings =
      { meaning := "A", primary := false } ::
        [{ meaning := "B", primary := false }] ∧
    (vocab_word_of_item sampleVocabItem).meanings = ["A"] ∧
    (vocab_word_of_item sampleVocabItem).readings = ["yo"] := by
  refine ⟨rfl, ?_, ?_⟩
  · exact (vocab_word_meanings_readings sampleVocabItem).2.1
      { meaning := "A", primary := false }
      [{ meaning := "B", primary := false }] rfl (by decide)
  · exact ((vocab_word_meanings_readings sampleVocabItem).2.2).trans rfl

/-- C7: a resolved radical's primary meaning is the first meaning flagged
primary; with none flagged it is the first listed meaning; with no
meanings at all it is `""`; and the character field preserves the
upstream `characters` value, absence included. -/
theorem radical_resolution (r_item : Item) :
    (∀ pre m post, r_item.data.meanings = pre ++ m :: post →
      (∀ m2 ∈ pre, m2.primary = false) → m.primary = true →
      (radical_component_of_item r_item).meaning = m.meaning) ∧
    ((∀ m2 ∈ r_item.data.meanings, m2.primary = false) →
      ∀ m0 rest, r_item.data.meanings = m0 :: rest →
      (radical_component_of_item r_item).meaning = m0.meaning) ∧
    (r_item.data.meanings = [] →
      (radical_component_of_item r_item).meaning = "") ∧
    (radical_component_of_item r_item).character = r_item.data.characters := by
  refine ⟨?_, ?_, ?_, rfl⟩
  · intro pre m post hdec hpre hm
    have hfind : r_item.data.meanings.find? (fun m => m.primary) = some m := by
      rw [hdec]
      exact find?_append_first _ pre m post hpre hm
    show radical_primary_meaning r_item.data.meanings = m.meaning
    unfold radical_primary_meaning
    rw [hfind]
  · intro hnone m0 rest hdec
    have hfind : r_item.data.meanings.find? (fun m => m.primary) = none :=
      List.find?_eq_none.mpr
        (fun x hx => by rw [hnone x hx]; exact Bool.false_ne_true)
    show radical_primary_meaning r_item.data.meanings = m0.meaning
    unfold radical_primary_meaning
    rw [hfind, hdec]
  · intro hnil
    show radical_primary_meaning r_item.data.meanings = ""
    unfold radical_primary_meaning
    rw [hnil]
    rfl

/-- Witness for C7: a glyph-less radical with one non-primary meaning
"Tree" resolves primary meaning "Tree" and keeps `character = none`. -/
theorem radical_resolution_witness :
    (∀ m2 ∈ sampleRadicalItem.data.meanings, m2.primary = false) ∧
    (radical_component_of_item sampleRadicalItem).meaning = "Tree" ∧
    (radical_component_of_item sampleRadicalItem).character = none := by
  refine ⟨by decide, ?_, ?_⟩
  · exact (radical_resolution sampleRadicalItem).2.1 (by decide)
      { meaning := "Tree", primary := false } [] rfl
  · exact ((radical_resolution sampleRadicalItem).2.2.2).trans rfl

/-- C8: get-by-ID: an upstream 404 fails with `NotFound` (HTTP 404) and
writes nothing to the status log; any other non-success fails with the
upstream status; a success returns one assembled subject including
context sentences but with empty vocabulary and radicals (no batch
enrichment). The status-log state is returned unchanged in every case. -/
theorem get_kanji_by_id_contract
    (status_checks : List StatusCheck) (api_key : String) (kanji_id : Nat)
    (upstream : Nat → ItemResp) (hkey : api_key ≠ "") :
    ((upstream kanji_id).status_code = 404 →
      get_kanji_by_id_route status_checks api_key kanji_id upstream =
        (status_checks,
         .error { status_code := 404, detail := "Kanji not found" })) ∧
    ((upstream kanji_id).status_code ≠ 404 →
      (upstream kanji_id).status_code ≠ 200 →
      get_kanji_by_id_route status_checks api_key kanji_id upstream =
        (status_checks,
         .error { status_code := (upstream kanji_id).status_code
                  detail := "WaniKani API error: " ++
                    (upstream kanji_id).text })) ∧
    ((upstream kanji_id).status_code = 200 →
      get_kanji_by_id_route status_checks api_key kanji_id upstream =
        (status_checks,
         .ok (assemble_kanji_by_id (upstream kanji_id).item)) ∧
      (assemble_kanji_by_id (upstream kanji_id).item).vocabulary = [] ∧
      (assemble_kanji_by_id (upstream kanji_id).item).radicals = [] ∧
      (assemble_kanji_by_id (upstream kanji_id).item).context_sentences =
        (upstream kanji_id).item.data.context_sentences.map
          (fun cs => { ja := cs.ja, en := cs.en })) := by
  unfold get_kanji_by_id_route get_kanji_by_id
  refine ⟨?_, ?_, ?_⟩
  · intro h404
    rw [if_neg hkey, if_pos h404]
  · intro hn404 hn200
    rw [if_neg hkey, if_neg hn404, if_pos hn200]
  · intro h200
    have hn404 : (upstream kanji_id).status_code ≠ 404 := by
      rw [h200]
      decide
    have hnn : ¬(upstream kanji_id).status_code ≠ 200 := fun hne => hne h200
    rw [if_neg hkey, if_neg hn404, if_neg hnn]
    exact ⟨rfl, rfl, rfl, rfl⟩

/-- Witness for C8: an upstream 404 for id 999999 yields HTTP 404 and
leaves the (empty) status log untouched. -/
theorem get_kanji_by_id_contract_witness :
    ("key" : String) ≠ "" ∧
    (notFoundItemResp.status_code = 404) ∧
    get_kanji_by_id_route [] "key" 999999 (fun _ => notFoundItemResp) =
      ([], .error { status_code := 404, detail := "Kanji not found" }) := by
  refine ⟨by decide, by decide, ?_⟩
  exact (get_kanji_by_id_contract [] "key" 999999 (fun _ => notFoundItemResp)
    (by decide)).1 rfl

/-- C9: an unrecognized band code is treated as "no filter": the upstream
query carries no levels restriction and the operation proceeds exactly as
with no band given. -/
theorem unrecognized_band_no_filter (s : String)
    (h : (JLPT_LEVEL_MAPPING.lookup (upper s)).isSome = false) :
    kanji_list_url (some s) = kanji_list_url none ∧
    ∀ (api_key : String) (page per_page : Nat)
      (upstream : String → List PageResp)
      (vocab_resp radical_resp : BatchResp),
      get_kanji api_key (some s) page per_page upstream vocab_resp
        radical_resp =
      get_kanji api_key none page per_page upstream vocab_resp
        radical_resp := by
  have hcond : ¬(s ≠ "" ∧
      (JLPT_LEVEL_MAPPING.lookup (upper s)).isSome = true) := by
    rintro ⟨-, h2⟩
    rw [h2] at h
    cases h
  have hurl : kanji_list_url (some s) = kanji_list_url none := by
    unfold kanji_list_url levels_param
    dsimp only
    rw [if_neg hcond]
  refine ⟨hurl, fun api_key page per_page upstream vocab_resp
    radical_resp => ?_⟩
  unfold get_kanji
  rw [hurl]

/-- Witness for C9 at the unrecognized band code "XX". -/
theorem unrecognized_band_no_filter_witness :
    (JLPT_LEVEL_MAPPING.lookup (upper "XX")).isSome = false ∧
    kanji_list_url (some "XX") = kanji_list_url none := by
  refine ⟨by decide, ?_⟩
  exact (unrecognized_band_no_filter "XX" (by decide)).1

/-- C10: band matching is case-insensitive: the level filter (and hence
the upstream URL) built for a band code equals the one built for its
uppercase form. -/
theorem band_matching_case_insensitive (s : String) :
    levels_param (some s) = levels_param (some (upper s)) ∧
    kanji_list_url (some s) = kanji_list_url (some (upper s)) := by
  have hkey : upper (upper s) = upper s := upper_idem s
  have hemp : (upper s ≠ "") ↔ (s ≠ "") :=
    not_congr (upper_eq_empty_iff s)
  have h1 : levels_param (some s) = levels_param (some (upper s)) := by
    unfold levels_param
    dsimp only
    rw [hkey]
    rw [if_congr (and_congr_left (fun _ => hemp.symm)) rfl rfl]
  exact ⟨h1, by unfold kanji_list_url; rw [h1]⟩

end Server
